import Mathlib

/-!
Shallow embedding of `src/main.py` (class `AdvancedTelegramCrawler`), the
deduplicated Telegram ingestion pipeline, together with proofs of the
specification claims about it.

Machine integers are modelled as `Nat` with explicit reduction modulo `2 ^ 32`
where the SHA-256 rounds overflow; Python `None` becomes `Option`; exceptions
become `Except Unit`; the SQLite tables become lists of row structures.
-/

namespace Crawler

/-! ## SHA-256, modelled bit-for-bit over `Nat` (for `generate_message_hash`) -/

/-- 32-bit truncation. -/
def m32 (x : Nat) : Nat := x % 4294967296

/-- 32-bit right rotation. -/
def rotr (n x : Nat) : Nat := m32 ((x >>> n) ||| (x <<< (32 - n)))

/-- SHA-256 small sigma 0. -/
def ssig0 (x : Nat) : Nat := (rotr 7 x) ^^^ (rotr 18 x) ^^^ (x >>> 3)

/-- SHA-256 small sigma 1. -/
def ssig1 (x : Nat) : Nat := (rotr 17 x) ^^^ (rotr 19 x) ^^^ (x >>> 10)

/-- SHA-256 big sigma 0. -/
def bsig0 (x : Nat) : Nat := (rotr 2 x) ^^^ (rotr 13 x) ^^^ (rotr 22 x)

/-- SHA-256 big sigma 1. -/
def bsig1 (x : Nat) : Nat := (rotr 6 x) ^^^ (rotr 11 x) ^^^ (rotr 25 x)

/-- SHA-256 choice function. -/
def ch (x y z : Nat) : Nat := (x &&& y) ^^^ ((x ^^^ 4294967295) &&& z)

/-- SHA-256 majority function. -/
def maj (x y z : Nat) : Nat := (x &&& y) ^^^ (x &&& z) ^^^ (y &&& z)

/-- The 64 SHA-256 round constants (FIPS 180-4, written in decimal). -/
def K256 : List Nat :=
  [1116352408, 1899447441, 3049323471, 3921009573, 961987163,
   1508970993, 2453635748, 2870763221, 3624381080, 310598401,
   607225278, 1426881987, 1925078388, 2162078206, 2614888103,
   3248222580, 3835390401, 4022224774, 264347078, 604807628,
   770255983, 1249150122, 1555081692, 1996064986, 2554220882,
   2821834349, 2952996808, 3210313671, 3336571891, 3584528711,
   113926993, 338241895, 666307205, 773529912, 1294757372,
   1396182291, 1695183700, 1986661051, 2177026350, 2456956037,
   2730485921, 2820302411, 3259730800, 3345764771, 3516065817,
   3600352804, 4094571909, 275423344, 430227734, 506948616,
   659060556, 883997877, 958139571, 1322822218, 1537002063,
   1747873779, 1955562222, 2024104815, 2227730452, 2361852424,
   2428436474, 2756734187, 3204031479, 3329325298]

/-- The SHA-256 initial hash value (FIPS 180-4, written in decimal). -/
def sha256Init : List Nat :=
  [1779033703, 3144134277, 1013904242, 2773480762,
   1359893119, 2600822924, 528734635, 1541459225]

/-- Group a byte list (length a multiple of 4) into big-endian 32-bit words. -/
def bytesToWords : List Nat → List Nat
  | b0 :: b1 :: b2 :: b3 :: rest =>
      (b0 * 16777216 + b1 * 65536 + b2 * 256 + b3) :: bytesToWords rest
  | _ => []

/-- Next message-schedule word, computed from the reversed schedule so far. -/
def schedStep (rw : List Nat) : Nat :=
  m32 (ssig1 (rw.getD 1 0) + rw.getD 6 0 + ssig0 (rw.getD 14 0) + rw.getD 15 0)

/-- Extend a (reversed) message schedule by `n` words. -/
def schedExtend : Nat → List Nat → List Nat
  | 0, rw => rw
  | n + 1, rw => schedExtend n (schedStep rw :: rw)

/-- The 64-word message schedule of a 16-word block. -/
def schedule (block : List Nat) : List Nat :=
  (schedExtend 48 block.reverse).reverse

/-- One SHA-256 compression round: state is the eight working words. -/
def round (st : List Nat) (kw : Nat × Nat) : List Nat :=
  let a := st.getD 0 0
  let b := st.getD 1 0
  let c := st.getD 2 0
  let d := st.getD 3 0
  let e := st.getD 4 0
  let f := st.getD 5 0
  let g := st.getD 6 0
  let h := st.getD 7 0
  let t1 := m32 (h + bsig1 e + ch e f g + kw.1 + kw.2)
  let t2 := m32 (bsig0 a + maj a b c)
  [m32 (t1 + t2), a, b, c, m32 (d + t1), e, f, g]

/-- Compress one 16-word block into the running eight-word hash state. -/
def compress (hs block : List Nat) : List Nat :=
  let final := (K256.zip (schedule block)).foldl round hs
  (hs.zip final).map fun p => m32 (p.1 + p.2)

/-- Split a word list into 16-word blocks and fold the compression over them. -/
def compressBlocks : List Nat → List Nat → List Nat
  | hs, w0 :: w1 :: w2 :: w3 :: w4 :: w5 :: w6 :: w7 :: w8 :: w9 :: w10 ::
        w11 :: w12 :: w13 :: w14 :: w15 :: rest =>
      compressBlocks
        (compress hs [w0, w1, w2, w3, w4, w5, w6, w7, w8, w9, w10, w11, w12,
                      w13, w14, w15]) rest
  | hs, _ => hs

/-- SHA-256 padding: append 0x80, zero bytes to 56 mod 64, then the bit length
as eight big-endian bytes. -/
def sha256Pad (msg : List Nat) : List Nat :=
  let len := msg.length
  let bitLen := 8 * len
  let zeros := (64 + 55 - len % 64) % 64
  msg ++ [0x80] ++ List.replicate zeros 0 ++
    [bitLen >>> 56 % 256, bitLen >>> 48 % 256, bitLen >>> 40 % 256,
     bitLen >>> 32 % 256, bitLen >>> 24 % 256, bitLen >>> 16 % 256,
     bitLen >>> 8 % 256, bitLen % 256]

/-- SHA-256 of a byte list, as the eight 32-bit words of the digest. -/
def sha256Words (msg : List Nat) : List Nat :=
  compressBlocks sha256Init (bytesToWords (sha256Pad msg))

/-- One hex digit (lowercase, as Python's `hexdigest`). -/
def hexDigit (d : Nat) : Char :=
  if d < 10 then Char.ofNat (48 + d) else Char.ofNat (87 + d)

/-- A 32-bit word as eight lowercase hex characters. -/
def wordToHex (w : Nat) : List Char :=
  [hexDigit (w >>> 28 % 16), hexDigit (w >>> 24 % 16), hexDigit (w >>> 20 % 16),
   hexDigit (w >>> 16 % 16), hexDigit (w >>> 12 % 16), hexDigit (w >>> 8 % 16),
   hexDigit (w >>> 4 % 16), hexDigit (w % 16)]

/-- SHA-256 hex digest of a byte list, mirroring `hashlib.sha256(...).hexdigest()`. -/
def sha256Hex (msg : List Nat) : String :=
  String.mk ((sha256Words msg).flatMap wordToHex)

/-- UTF-8 encoding of one code point. -/
def utf8Char (c : Nat) : List Nat :=
  if c < 0x80 then [c]
  else if c < 0x800 then
    [0xc0 ||| (c >>> 6), 0x80 ||| (c &&& 0x3f)]
  else if c < 0x10000 then
    [0xe0 ||| (c >>> 12), 0x80 ||| ((c >>> 6) &&& 0x3f), 0x80 ||| (c &&& 0x3f)]
  else
    [0xf0 ||| (c >>> 18), 0x80 ||| ((c >>> 12) &&& 0x3f),
     0x80 ||| ((c >>> 6) &&& 0x3f), 0x80 ||| (c &&& 0x3f)]

/-- UTF-8 encoding of a string (`str.encode('utf-8')`). -/
def utf8Encode (s : String) : List Nat :=
  s.data.flatMap fun c => utf8Char c.toNat

/-! ## Raw transport objects (Telethon values consumed by the crawler) -/

/-- A Telethon peer reference: `PeerChannel`, `PeerChat` or `PeerUser`.  Only the
variant's own id attribute exists on the Python object. -/
inductive PeerRef
  | channel (channel_id : Int)
  | chat (chat_id : Int)
  | user (user_id : Int)
deriving DecidableEq

/-- The `channel_id` attribute of a peer (`none` models `hasattr` being false,
so that reading it raises `AttributeError`). -/
def PeerRef.channelId? : PeerRef → Option Int
  | .channel c => some c
  | _ => none

/-- The `chat_id` attribute of a peer. -/
def PeerRef.chatId? : PeerRef → Option Int
  | .chat c => some c
  | _ => none

/-- The live listener's guard
`hasattr(peer_id, 'channel_id') or hasattr(peer_id, 'chat_id')`. -/
def PeerRef.isGroupOrChannel (p : PeerRef) : Bool :=
  p.channelId?.isSome || p.chatId?.isSome

/-- A raw user object as read by `save_user_info` (absent attributes are
`none`; `id?` is `none` when the object lacks an `id` attribute). -/
structure RawUser where
  id? : Option Int
  username : Option String
  first_name : Option String
  last_name : Option String
  phone : Option String
  bot : Bool
deriving DecidableEq

/-- A raw chat object as read by `save_chat_info`. -/
structure RawChat where
  id : Int
  title : Option String
  username : Option String
  className : String
  participants_count : Option Int
  about : Option String
deriving DecidableEq

/-- A raw message object as read by `save_message`.  `chat_id?` is `none` when
the object lacks a `chat_id` attribute (then the code falls back to
`message.peer_id.channel_id`); `media` holds the media variant's type name. -/
structure RawMessage where
  id : Int
  chat_id? : Option Int
  peer_id : PeerRef
  text : Option String
  sender_id : Option Int
  date : Int
  reply_to_msg_id : Option Int
  forward_from_id : Option Int
  media : Option String
deriving DecidableEq

/-- Python truthiness of an optional string (`None` and `""` are falsy). -/
def strTruthy : Option String → Bool
  | none => false
  | some s => !(s == "")

/-- Python truthiness of an optional integer (`None` and `0` are falsy). -/
def intTruthy : Option Int → Bool
  | none => false
  | some n => !(n == 0)

/-! ## Database rows and crawler state -/

/-- A row of the `users` table. -/
structure UserRow where
  user_id : Int
  username : Option String
  first_name : Option String
  last_name : Option String
  phone : Option String
  is_bot : Bool
  created_at : Nat
  updated_at : Nat
deriving DecidableEq

/-- A row of the `chats` table. -/
structure ChatRow where
  chat_id : Int
  title : Option String
  username : Option String
  chat_type : String
  members_count : Int
  description : Option String
  invite_link : Option String
  created_at : Nat
  updated_at : Nat
deriving DecidableEq

/-- A row of the `messages` table (the autoincrement `id` column is the list
position and carries no information). -/
structure MessageRow where
  message_hash : String
  message_id : Int
  chat_id : Int
  chat_title : Option String
  chat_username : Option String
  sender_id : Option Int
  sender_username : Option String
  sender_first_name : Option String
  sender_last_name : Option String
  text : String
  date : Int
  reply_to_message_id : Option Int
  forward_from_chat_id : Option Int
  media_type : Option String
  created_at : Nat
deriving DecidableEq

/-- The SQLite database: the three tables. -/
structure DB where
  users : List UserRow
  messages : List MessageRow
  chats : List ChatRow
deriving DecidableEq

/-- The dict built and cached by `save_user_info`. -/
structure UserData where
  user_id : Int
  username : Option String
  first_name : Option String
  last_name : Option String
  phone : Option String
  is_bot : Bool
deriving DecidableEq

/-- The part of the chat-info dict that `save_message` reads
(`chat_info.get('title')`, `chat_info.get('username')`). -/
structure ChatData where
  title : Option String
  username : Option String
deriving DecidableEq

/-- The crawler's mutable state: the database and the in-process user cache. -/
structure CrawlerState where
  db : DB
  user_cache : List (Int × UserData)
deriving DecidableEq

/-- The external world: entity resolution and the permission probe, each of
which may raise (`Except.error`). -/
structure Env where
  resolveSender : Int → Except Unit RawUser
  resolveChat : PeerRef → Except Unit RawChat
  getPermissions : Int → Except Unit Bool

/-! ## Store primitives -/

/-- The hash computed by `generate_message_hash`:
`sha256(f"{message_id}_{chat_id}_{text}".encode('utf-8')).hexdigest()`. -/
def generate_message_hash (message_id chat_id : Int) (text : String) : String :=
  sha256Hex (utf8Encode (toString message_id ++ "_" ++ toString chat_id ++ "_" ++ text))

/-- The dedup existence check `message_exists`. -/
def message_exists (st : CrawlerState) (message_hash : String) : Bool :=
  st.db.messages.any fun r => r.message_hash == message_hash

/-- Number of `messages` rows carrying a given fingerprint. -/
def countHash (st : CrawlerState) (h : String) : Nat :=
  (st.db.messages.filter fun r => r.message_hash == h).length

/-- SQLite `INSERT OR REPLACE` into `users`: the conflicting row is deleted and
a whole new row inserted, so omitted columns take their defaults. -/
def upsertUser (row : UserRow) (l : List UserRow) : List UserRow :=
  (l.filter fun r => !(r.user_id == row.user_id)) ++ [row]

/-- SQLite `INSERT OR REPLACE` into `chats`. -/
def upsertChat (row : ChatRow) (l : List ChatRow) : List ChatRow :=
  (l.filter fun r => !(r.chat_id == row.chat_id)) ++ [row]

/-- Lookup in the in-process user cache. -/
def cacheLookup (uid : Int) (c : List (Int × UserData)) : Option UserData :=
  (c.find? fun p => p.1 == uid).map Prod.snd

/-- Plain `INSERT` into `messages` (append). -/
def insertMessage (st : CrawlerState) (row : MessageRow) : CrawlerState :=
  { st with db := { st.db with messages := st.db.messages ++ [row] } }

/-! ## Entity normalizer -/

/-- The method `save_user_info`: `None`/id-less users are rejected, the cache
is consulted first, and a miss does an `INSERT OR REPLACE` into `users` with
`created_at` left to its `CURRENT_TIMESTAMP` default and then fills the
cache. -/
def save_user_info (now : Nat) (st : CrawlerState) (user : Option RawUser) :
    Option UserData × CrawlerState :=
  match user with
  | none => (none, st)
  | some u =>
    match u.id? with
    | none => (none, st)
    | some uid =>
      match cacheLookup uid st.user_cache with
      | some d => (some d, st)
      | none =>
        let d : UserData := ⟨uid, u.username, u.first_name, u.last_name, u.phone, u.bot⟩
        let row : UserRow :=
          ⟨uid, u.username, u.first_name, u.last_name, u.phone, u.bot, now, now⟩
        (some d,
         { db := { st.db with users := upsertUser row st.db.users },
           user_cache := (uid, d) :: st.user_cache })

/-- Invite-link derivation in `save_chat_info`: a truthy public username gives
the canonical link, otherwise the permission probe is attempted and any
exception is swallowed, leaving the link null. -/
def inviteLinkFor (env : Env) (chat : RawChat) : Option String :=
  if strTruthy chat.username then
    some ("https://t.me/" ++ chat.username.getD "")
  else
    match env.getPermissions chat.id with
    | .ok true => some "private_group"
    | .ok false => none
    | .error _ => none

/-- The method `save_chat_info`: builds the chat dict and does an
`INSERT OR REPLACE` into `chats`, again with `created_at` left to its
default. -/
def save_chat_info (env : Env) (now : Nat) (st : CrawlerState) (chat : RawChat) :
    ChatData × CrawlerState :=
  let row : ChatRow :=
    ⟨chat.id, chat.title, chat.username, chat.className,
     (chat.participants_count.getD 0), chat.about, inviteLinkFor env chat, now, now⟩
  (⟨chat.title, chat.username⟩,
   { st with db := { st.db with chats := upsertChat row st.db.chats } })

/-! ## Ingestion pipeline (`save_message`) -/

/-- The effective chat id
`message.chat_id if hasattr(message, 'chat_id') else message.peer_id.channel_id`;
`none` means the fallback attribute read raises `AttributeError`. -/
def effectiveChatId (m : RawMessage) : Option Int :=
  match m.chat_id? with
  | some c => some c
  | none => m.peer_id.channelId?

/-- The fallback chat context used when chat resolution fails. -/
def placeholderChat : ChatData := ⟨some "Unknown", none⟩

/-- Sender resolution step of `save_message`: skipped for a falsy sender id,
a resolution exception is caught and leaves `sender_info = None`. -/
def senderStep (env : Env) (now : Nat) (st : CrawlerState) (message : RawMessage) :
    Option UserData × CrawlerState :=
  if intTruthy message.sender_id then
    match env.resolveSender (message.sender_id.getD 0) with
    | .error _ => (none, st)
    | .ok sender => save_user_info now st (some sender)
  else (none, st)

/-- Chat resolution step of `save_message`: a caller-supplied context is used
as-is, otherwise the chat is resolved and saved, and a resolution exception
falls back to the placeholder context. -/
def chatStep (env : Env) (now : Nat) (st : CrawlerState) (message : RawMessage)
    (chat_info : Option ChatData) : ChatData × CrawlerState :=
  match chat_info with
  | some ci => (ci, st)
  | none =>
    match env.resolveChat message.peer_id with
    | .error _ => (placeholderChat, st)
    | .ok chat => save_chat_info env now st chat

/-- The `messages` row built by `save_message`. -/
def buildRow (message : RawMessage) (cid : Int) (mh : String)
    (sender_info : Option UserData) (ci : ChatData) (now : Nat) : MessageRow :=
  ⟨mh, message.id, cid, ci.title, ci.username, message.sender_id,
   sender_info.bind UserData.username, sender_info.bind UserData.first_name,
   sender_info.bind UserData.last_name, message.text.getD "", message.date,
   message.reply_to_msg_id, message.forward_from_id, message.media, now⟩

/-- The method `save_message`: null-text rejection, fingerprint, dedup check,
sender and chat resolution, insert.  `Except.error` is the uncaught
`AttributeError` from the effective-chat-id fallback, which happens before any
store write. -/
def save_message (env : Env) (now : Nat) (st : CrawlerState)
    (message : RawMessage) (chat_info : Option ChatData) :
    Except Unit (Bool × CrawlerState) :=
  if !(strTruthy message.text) then
    .ok (false, st)
  else
    match effectiveChatId message with
    | none => .error ()
    | some cid =>
      let mh := generate_message_hash message.id cid (message.text.getD "")
      if message_exists st mh then
        .ok (false, st)
      else
        let s := senderStep env now st message
        let c := chatStep env now s.2 message chat_info
        .ok (true, insertMessage c.2 (buildRow message cid mh s.1 c.1 now))

/-! ## Live driver -/

/-- The handler installed by `setup_real_time_listener`: a text-carrying event
whose peer has a `channel_id` or `chat_id` attribute is routed through
`save_message` with no caller-supplied chat context; every exception is caught
(leaving whatever state the pipeline reached, which for the only uncaught
exception point is the entry state). -/
def handle_new_message (env : Env) (now : Nat) (st : CrawlerState)
    (event : RawMessage) : CrawlerState :=
  if strTruthy event.text && event.peer_id.isGroupOrChannel then
    match save_message env now st event none with
    | .ok p => p.2
    | .error _ => st
  else st

/-! ## Backfill driver -/

/-- One step of the message iterator of a chat: a yielded raw message, or an
exception raised by the iteration itself. -/
inductive CrawlItem
  | msg (m : RawMessage)
  | fail
deriving DecidableEq

/-- One chat as the backfill driver experiences it: the outcome of resolving
the chat, then the iterator steps (truncated to the per-chat limit). -/
structure ChatCrawl where
  setup : Except Unit RawChat
  items : List CrawlItem

/-- The message loop of `crawl_chat_messages`: text-carrying messages go
through `save_message` with the crawled chat's context; an exception (from the
iterator or from the pipeline) is caught by the per-chat handler, keeping the
count accumulated so far. -/
def crawlLoop (env : Env) (now : Nat) (chat_info : ChatData) :
    List CrawlItem → Nat → CrawlerState → Nat × CrawlerState
  | [], n, st => (n, st)
  | .fail :: _, n, st => (n, st)
  | .msg m :: rest, n, st =>
    if strTruthy m.text then
      match save_message env now st m (some chat_info) with
      | .ok p => crawlLoop env now chat_info rest (if p.1 then n + 1 else n) p.2
      | .error _ => (n, st)
    else crawlLoop env now chat_info rest n st

/-- The method `crawl_chat_messages`: resolve and save the chat, then run the
loop; a resolution failure is caught and yields zero new messages. -/
def crawl_chat_messages (env : Env) (now : Nat) (st : CrawlerState)
    (c : ChatCrawl) : Nat × CrawlerState :=
  match c.setup with
  | .error _ => (0, st)
  | .ok chat =>
    let p := save_chat_info env now st chat
    crawlLoop env now p.1 c.items 0 p.2

/-- The method `crawl_all_chats`: crawl each chat in turn, accumulating the
per-chat new-message counts. -/
def crawl_all_chats (env : Env) (now : Nat) :
    CrawlerState → List ChatCrawl → Nat × CrawlerState
  | st, [] => (0, st)
  | st, c :: rest =>
    let p := crawl_chat_messages env now st c
    let q := crawl_all_chats env now p.2 rest
    (p.1 + q.1, q.2)

/-! ## Query and export layer -/

/-- `LEFT JOIN chats c ON m.chat_id = c.chat_id`. -/
def lookupChat (db : DB) (cid : Int) : Option ChatRow :=
  db.chats.find? fun c => c.chat_id == cid

/-- `LEFT JOIN users u ON m.sender_id = u.user_id` (a SQL NULL sender id joins
no row). -/
def lookupUser (db : DB) (sid : Option Int) : Option UserRow :=
  match sid with
  | none => none
  | some s => db.users.find? fun u => u.user_id == s

/-- ASCII lowering, as SQLite `LIKE` is ASCII case-insensitive. -/
def lowerChar (c : Char) : Char :=
  if 65 ≤ c.toNat ∧ c.toNat ≤ 90 then Char.ofNat (c.toNat + 32) else c

/-- List-of-characters prefix test. -/
def prefixChars : List Char → List Char → Bool
  | [], _ => true
  | _ :: _, [] => false
  | a :: as, b :: bs => a == b && prefixChars as bs

/-- List-of-characters containment test. -/
def containsChars (needle : List Char) : List Char → Bool
  | [] => needle.isEmpty
  | c :: rest => prefixChars needle (c :: rest) || containsChars needle rest

/-- `column LIKE '%pat%'` with no wildcards inside `pat`. -/
def likeAnywhere (hay pat : String) : Bool :=
  containsChars (pat.data.map lowerChar) (hay.data.map lowerChar)

/-- A result row of `search_messages`:
`m.*, c.title as chat_title, u.username as sender_username`. -/
structure SearchRow where
  msg : MessageRow
  chat_title : Option String
  sender_username : Option String
deriving DecidableEq

/-- The join part of the search query, per message row. -/
def searchJoinRow (db : DB) (m : MessageRow) : SearchRow :=
  ⟨m, (lookupChat db m.chat_id).bind ChatRow.title,
   (lookupUser db m.sender_id).bind UserRow.username⟩

/-- `c.title LIKE ?`: NULL (no joined row, or a null title) never matches. -/
def chatTitleMatches (db : DB) (m : MessageRow) (f : String) : Bool :=
  match (lookupChat db m.chat_id).bind ChatRow.title with
  | none => false
  | some t => likeAnywhere t f

/-- Insertion into a list kept in descending `date` order. -/
def insertByDateDesc (m : MessageRow) : List MessageRow → List MessageRow
  | [] => [m]
  | x :: xs => if x.date ≤ m.date then m :: x :: xs else x :: insertByDateDesc m xs

/-- `ORDER BY m.date DESC`. -/
def sortByDateDesc (l : List MessageRow) : List MessageRow :=
  l.foldr insertByDateDesc []

/-- The method `search_messages`: filter by text (and optional chat-title
filter), join, order by date descending, limit. -/
def search_messages (db : DB) (query : String) (chat_title : Option String)
    (lim : Nat) : List SearchRow :=
  let filtered := db.messages.filter fun m =>
    likeAnywhere m.text query &&
      (match chat_title with
       | none => true
       | some f => chatTitleMatches db m f)
  ((sortByDateDesc filtered).map (searchJoinRow db)).take lim

/-- An ASCII whitespace character, as stripped by Python `str.strip()`. -/
def isSpaceChar (c : Char) : Bool :=
  c == ' ' || c == '\t' || c == '\n' || c == '\r' ||
    c == Char.ofNat 11 || c == Char.ofNat 12

/-- Drop leading whitespace characters. -/
def dropLeadingSpaces : List Char → List Char
  | [] => []
  | c :: r => if isSpaceChar c then dropLeadingSpaces r else c :: r

/-- Python `str.strip()`: drop whitespace from both ends. -/
def stripStr (s : String) : String :=
  String.mk (dropLeadingSpaces ((dropLeadingSpaces s.data.reverse).reverse))

/-- One flattened record of `export_to_json` (its JSON fields; `sender_name`
is the Python-side `f"{first or ''} {last or ''}".strip()`). -/
structure ExportRecord where
  hash : String
  message_id : Int
  chat_id : Int
  chat_title : Option String
  chat_username : Option String
  sender_id : Option Int
  sender_username : Option String
  sender_name : String
  text : String
  date : Int
  created_at : Nat
deriving DecidableEq

/-- The per-message record built by the export query and JSON conversion. -/
def exportRecord (db : DB) (m : MessageRow) : ExportRecord :=
  let u := lookupUser db m.sender_id
  ⟨m.message_hash, m.message_id, m.chat_id,
   (lookupChat db m.chat_id).bind ChatRow.title,
   (lookupChat db m.chat_id).bind ChatRow.username,
   m.sender_id, u.bind UserRow.username,
   stripStr (((u.bind UserRow.first_name).getD "") ++ " " ++
     ((u.bind UserRow.last_name).getD "")),
   m.text, m.date, m.created_at⟩

/-- The record list of `export_to_json` (full scan, date descending). -/
def export_rows (db : DB) : List ExportRecord :=
  (sortByDateDesc db.messages).map (exportRecord db)

/-- The empty crawler state (fresh database, empty cache). -/
def stEmpty : CrawlerState := ⟨⟨[], [], []⟩, []⟩

/-! ## Concrete fixtures used by the witnesses and counterexamples -/

/-- An environment in which every external call raises. -/
def envFail : Env :=
  ⟨fun _ => Except.error (), fun _ => Except.error (), fun _ => Except.error ()⟩

/-- Scenario A raw message: id 42, chat 100, text `hello`. -/
def msgA : RawMessage :=
  ⟨42, some 100, PeerRef.channel 100, some "hello", some 7, 1000, none, none, none⟩

/-- Scenario A message as the live path sees it: no direct `chat_id`, only the
nested peer reference. -/
def msgALive : RawMessage :=
  ⟨42, none, PeerRef.channel 100, some "hello", some 7, 1000, none, none, none⟩

/-- A raw message with absent text and a user peer. -/
def msgNoText : RawMessage :=
  ⟨5, none, PeerRef.user 9, none, some 7, 0, none, none, none⟩

/-- A private (user-peer) live event carrying text. -/
def msgPrivate : RawMessage :=
  ⟨6, some 9, PeerRef.user 9, some "hi", some 9, 0, none, none, none⟩

/-- A concrete raw chat. -/
def chatG : RawChat := ⟨100, some "G", none, "Chat", some 5, none⟩

/-- A concrete raw user. -/
def rawUserU : RawUser := ⟨some 7, some "u2", some "U", none, none, false⟩

/-- A crawler state holding one user row first seen at time 0, with an empty
in-process cache (a fresh process). -/
def stUser0 : CrawlerState :=
  ⟨⟨[⟨7, some "u", none, none, none, false, 0, 0⟩], [], []⟩, []⟩

/-- A raw message used by the backfill counterexample. -/
def msgX : RawMessage :=
  ⟨3, some 100, PeerRef.channel 100, some "x", none, 0, none, none, none⟩

/-- A chat whose iterator yields one new message and then raises. -/
def ccFail : ChatCrawl := ⟨Except.ok chatG, [CrawlItem.msg msgX, CrawlItem.fail]⟩

/-- A second observation of user 7, with changed attributes. -/
def rawUserV : RawUser := ⟨some 7, some "v", some "V", none, none, false⟩

/-- A cached dict for user 7. -/
def dW : UserData := ⟨7, some "u", none, none, none, false⟩

/-- A state whose in-process cache already holds user 7. -/
def stCache : CrawlerState := ⟨⟨[], [], []⟩, [(7, dW)]⟩

/-- A message row whose snapshot columns are set but whose chat and sender
have no rows in the current tables. -/
def msgRowOrphan : MessageRow :=
  ⟨"h1", 1, 100, some "SnapTitle", some "snapchat", some 7, some "snapuser",
   some "SnapFirst", some "SnapLast", "hello", 10, none, none, none, 0⟩

/-- A database holding only the orphan message. -/
def dbOrphan : DB := ⟨[], [msgRowOrphan], []⟩

/-- The search row the orphan message produces. -/
def searchRowOrphan : SearchRow := ⟨msgRowOrphan, none, none⟩

/-- The export record the orphan message produces. -/
def exportRowOrphan : ExportRecord :=
  ⟨"h1", 1, 100, none, none, some 7, none, "", "hello", 10, 0⟩

/-! ## Helper lemmas about the pipeline steps -/

/-- `save_user_info` never touches the `messages` table. -/
theorem save_user_info_messages (now : Nat) (st : CrawlerState) (u : Option RawUser) :
    (save_user_info now st u).2.db.messages = st.db.messages := by
  unfold save_user_info
  split
  · rfl
  · split
    · rfl
    · split
      · rfl
      · rfl

/-- `save_chat_info` never touches the `messages` table. -/
theorem save_chat_info_messages (env : Env) (now : Nat) (st : CrawlerState)
    (chat : RawChat) :
    (save_chat_info env now st chat).2.db.messages = st.db.messages := rfl

/-- The sender-resolution step never touches the `messages` table. -/
theorem senderStep_messages (env : Env) (now : Nat) (st : CrawlerState)
    (message : RawMessage) :
    (senderStep env now st message).2.db.messages = st.db.messages := by
  unfold senderStep
  split
  · split
    · rfl
    · exact save_user_info_messages now st _
  · rfl

/-- The chat-resolution step never touches the `messages` table. -/
theorem chatStep_messages (env : Env) (now : Nat) (st : CrawlerState)
    (message : RawMessage) (chat_info : Option ChatData) :
    (chatStep env now st message chat_info).2.db.messages = st.db.messages := by
  unfold chatStep
  split
  · rfl
  · split
    · rfl
    · exact save_chat_info_messages env now st _

/-- On a fresh fingerprint, `save_message` runs the resolution steps and
appends the built row. -/
theorem save_message_fresh (env : Env) (now : Nat) (st : CrawlerState)
    (msg : RawMessage) (ctx : Option ChatData) (cid : Int)
    (htext : strTruthy msg.text = true)
    (hcid : effectiveChatId msg = some cid)
    (hfresh : message_exists st
      (generate_message_hash msg.id cid (msg.text.getD "")) = false) :
    save_message env now st msg ctx =
      Except.ok (true,
        insertMessage (chatStep env now (senderStep env now st msg).2 msg ctx).2
          (buildRow msg cid (generate_message_hash msg.id cid (msg.text.getD ""))
            (senderStep env now st msg).1
            (chatStep env now (senderStep env now st msg).2 msg ctx).1 now)) := by
  unfold save_message
  rw [htext, hcid]
  simp only [Bool.not_true, if_false, hfresh]
  rfl

/-- On a fingerprint already present, `save_message` skips without touching
the state. -/
theorem save_message_dup (env : Env) (now : Nat) (st : CrawlerState)
    (msg : RawMessage) (ctx : Option ChatData) (cid : Int)
    (htext : strTruthy msg.text = true)
    (hcid : effectiveChatId msg = some cid)
    (hdup : message_exists st
      (generate_message_hash msg.id cid (msg.text.getD "")) = true) :
    save_message env now st msg ctx = Except.ok (false, st) := by
  unfold save_message
  rw [htext, hcid]
  simp only [Bool.not_true, if_false, hdup, if_true]
  rfl

/-- Inserting a row with a given fingerprint makes the existence check hit. -/
theorem message_exists_insert (st : CrawlerState) (row : MessageRow) (h : String)
    (hh : row.message_hash = h) :
    message_exists (insertMessage st row) h = true := by
  simp [message_exists, insertMessage, hh]

/-- A missed existence check means zero rows carry the fingerprint. -/
theorem countHash_zero (st : CrawlerState) (h : String)
    (hfresh : message_exists st h = false) :
    countHash st h = 0 := by
  unfold message_exists at hfresh
  unfold countHash
  rw [List.length_eq_zero, List.filter_eq_nil_iff]
  intro a ha
  intro hcontra
  have : st.db.messages.any (fun r => r.message_hash == h) = true :=
    List.any_eq_true.mpr ⟨a, ha, hcontra⟩
  rw [hfresh] at this
  exact Bool.false_ne_true this

/-- Inserting a row with the fingerprint bumps its row count by one. -/
theorem countHash_insert (st : CrawlerState) (row : MessageRow) (h : String)
    (hh : row.message_hash = h) :
    countHash (insertMessage st row) h = countHash st h + 1 := by
  simp [countHash, insertMessage, List.filter_append, hh]

/-- `countHash` only reads the `messages` table. -/
theorem countHash_congr (st st2 : CrawlerState) (h : String)
    (hmsg : st2.db.messages = st.db.messages) :
    countHash st2 h = countHash st h := by
  unfold countHash
  rw [hmsg]

/-- The final state of a fresh `save_message` appends exactly one row to the
`messages` table, leaving earlier rows in place. -/
theorem save_message_fresh_messages (env : Env) (now : Nat) (st : CrawlerState)
    (msg : RawMessage) (ctx : Option ChatData) (row : MessageRow) :
    (insertMessage (chatStep env now (senderStep env now st msg).2 msg ctx).2
        row).db.messages = st.db.messages ++ [row] := by
  show (chatStep env now (senderStep env now st msg).2 msg ctx).2.db.messages ++ [row] =
    st.db.messages ++ [row]
  rw [chatStep_messages, senderStep_messages]

/-! ## The claims -/

/-- C1: for every raw message with non-empty text whose fingerprint is not yet
stored, the first `save_message` inserts and returns true, exactly one row then
carries the fingerprint, and a second `save_message` on the same message object
(under any environment, clock and chat context) returns false and returns the
state unchanged — no row and no other store write happens after the existence
check hits. -/
theorem ingest_idempotent (env env2 : Env) (now now2 : Nat) (st : CrawlerState)
    (msg : RawMessage) (ctx ctx2 : Option ChatData) (cid : Int)
    (htext : strTruthy msg.text = true)
    (hcid : effectiveChatId msg = some cid)
    (hfresh : message_exists st
      (generate_message_hash msg.id cid (msg.text.getD "")) = false) :
    ∃ st1 : CrawlerState,
      save_message env now st msg ctx = Except.ok (true, st1) ∧
      countHash st1 (generate_message_hash msg.id cid (msg.text.getD "")) = 1 ∧
      save_message env2 now2 st1 msg ctx2 = Except.ok (false, st1) := by
  refine ⟨_, save_message_fresh env now st msg ctx cid htext hcid hfresh, ?_, ?_⟩
  · refine (countHash_insert _ _ _ rfl).trans ?_
    rw [countHash_congr st _ _ (by rw [chatStep_messages, senderStep_messages])]
    show countHash st (generate_message_hash msg.id cid (msg.text.getD "")) + 1 = 1
    rw [countHash_zero st _ hfresh]
  · exact save_message_dup _ _ _ _ _ _ htext hcid (message_exists_insert _ _ _ rfl)

set_option maxRecDepth 8000 in
/-- C1 witness: Scenario A at the concrete message (42, 100, "hello") from the
empty store. -/
theorem ingest_idempotent_witness :
    strTruthy msgA.text = true ∧ effectiveChatId msgA = some 100 ∧
    message_exists stEmpty (generate_message_hash 42 100 "hello") = false ∧
    ∃ st1 : CrawlerState,
      save_message envFail 0 stEmpty msgA none = Except.ok (true, st1) ∧
      countHash st1 (generate_message_hash 42 100 "hello") = 1 ∧
      save_message envFail 0 st1 msgA none = Except.ok (false, st1) :=
  ⟨by decide, by decide, by decide,
   ingest_idempotent envFail envFail 0 0 stEmpty msgA none none 100
     (by decide) (by decide) (by decide)⟩

set_option maxRecDepth 4000 in
/-- C2: `generate_message_hash` is the pure function taking
(message_id, chat_id, text) to the SHA-256 hex digest of the UTF-8 bytes of
`"{message_id}_{chat_id}_{text}"` (with `sha256Hex` and `utf8Encode` the
bit-level SHA-256 and UTF-8 of this file); at (42, 100, "hello") the digest is
the standard SHA-256 value of the string `42_100_hello`. -/
theorem generate_message_hash_spec :
    (∀ (message_id chat_id : Int) (text : String),
        generate_message_hash message_id chat_id text =
          sha256Hex (utf8Encode
            (toString message_id ++ "_" ++ toString chat_id ++ "_" ++ text))) ∧
    generate_message_hash 42 100 "hello" =
      "70c6ac7767d9f6f52c48c4329b318064c7995ef0c44383f215288771534430c5" :=
  ⟨fun _ _ _ => rfl, by decide⟩

/-- C3: a message exposing its chat id directly and the same physical message
exposing it only through a nested channel-peer reference normalize to the same
effective chat id, so ingesting the direct (backfill) form and then the
peer-only (live) form of the same message recognizes the second as a
duplicate: it returns false and leaves the state unchanged. -/
theorem cross_mode_chat_id (env1 env2 : Env) (now1 now2 : Nat) (st : CrawlerState)
    (m1 m2 : RawMessage) (c : Int) (ctx1 : Option ChatData)
    (hid : m2.id = m1.id) (htx : m2.text = m1.text)
    (ht : strTruthy m1.text = true)
    (h1 : m1.chat_id? = some c)
    (h2 : m2.chat_id? = none) (h2p : m2.peer_id = PeerRef.channel c)
    (hfresh : message_exists st
      (generate_message_hash m1.id c (m1.text.getD "")) = false) :
    effectiveChatId m1 = some c ∧ effectiveChatId m2 = some c ∧
    ∃ st1 : CrawlerState,
      save_message env1 now1 st m1 ctx1 = Except.ok (true, st1) ∧
      save_message env2 now2 st1 m2 none = Except.ok (false, st1) := by
  have e1 : effectiveChatId m1 = some c := by unfold effectiveChatId; rw [h1]
  have e2 : effectiveChatId m2 = some c := by
    unfold effectiveChatId; rw [h2, h2p]; rfl
  refine ⟨e1, e2, _, save_message_fresh env1 now1 st m1 ctx1 c ht e1 hfresh, ?_⟩
  apply save_message_dup env2 now2 _ m2 none c (by rw [htx]; exact ht) e2
  rw [hid, htx]
  exact message_exists_insert _ _ _ rfl

set_option maxRecDepth 8000 in
/-- C3 witness: the backfill form (direct chat id 100) and the live form (only
a channel peer with id 100) of message 42 with text "hello". -/
theorem cross_mode_chat_id_witness :
    msgALive.id = msgA.id ∧ msgALive.text = msgA.text ∧
    strTruthy msgA.text = true ∧ msgA.chat_id? = some 100 ∧
    msgALive.chat_id? = none ∧ msgALive.peer_id = PeerRef.channel 100 ∧
    message_exists stEmpty (generate_message_hash 42 100 "hello") = false ∧
    (effectiveChatId msgA = some 100 ∧ effectiveChatId msgALive = some 100 ∧
      ∃ st1 : CrawlerState,
        save_message envFail 0 stEmpty msgA (some placeholderChat) =
          Except.ok (true, st1) ∧
        save_message envFail 0 st1 msgALive none = Except.ok (false, st1)) :=
  ⟨by decide, by decide, by decide, by decide, by decide, by decide, by decide,
   cross_mode_chat_id envFail envFail 0 0 stEmpty msgA msgALive 100
     (some placeholderChat) (by decide) (by decide) (by decide) (by decide)
     (by decide) (by decide) (by decide)⟩

/-- C4: a message with absent (`None`) or empty text makes `save_message`
return false with the state unchanged, whatever the environment, clock, chat
context and remaining fields: no fingerprint is computed (the early return even
precedes the chat-id attribute read that raises on a user peer) and no row is
persisted. -/
theorem null_text_skip (env : Env) (now : Nat) (st : CrawlerState)
    (msg : RawMessage) (ctx : Option ChatData)
    (h : msg.text = none ∨ msg.text = some "") :
    save_message env now st msg ctx = Except.ok (false, st) := by
  have ht : strTruthy msg.text = false := by
    rcases h with h | h <;> rw [h] <;> rfl
  unfold save_message
  rw [ht]
  rfl

/-- C4 witness: a text-less message with a user peer is skipped from the empty
state. -/
theorem null_text_skip_witness :
    (msgNoText.text = none ∨ msgNoText.text = some "") ∧
    save_message envFail 0 stEmpty msgNoText none = Except.ok (false, stEmpty) :=
  ⟨Or.inl rfl, null_text_skip envFail 0 stEmpty msgNoText none (Or.inl rfl)⟩

/-- C5: when sender resolution raises for a truthy sender id, a new text
message is still inserted: `save_message` returns true and appends a row whose
`sender_id` is the original one while `sender_username`, `sender_first_name`
and `sender_last_name` are null. -/
theorem sender_failure_tolerated (env : Env) (now : Nat) (st : CrawlerState)
    (msg : RawMessage) (ctx : Option ChatData) (cid sid : Int)
    (htext : strTruthy msg.text = true)
    (hcid : effectiveChatId msg = some cid)
    (hfresh : message_exists st
      (generate_message_hash msg.id cid (msg.text.getD "")) = false)
    (hsid : msg.sender_id = some sid) (hs0 : ¬(sid = 0))
    (hres : env.resolveSender sid = Except.error ()) :
    ∃ (st1 : CrawlerState) (row : MessageRow),
      save_message env now st msg ctx = Except.ok (true, st1) ∧
      st1.db.messages = st.db.messages ++ [row] ∧
      row.sender_id = some sid ∧ row.sender_username = none ∧
      row.sender_first_name = none ∧ row.sender_last_name = none := by
  have hstep : senderStep env now st msg = (none, st) := by
    unfold senderStep
    rw [hsid]
    have : intTruthy (some sid) = true := by
      simp [intTruthy, hs0]
    rw [this]
    simp only [if_true, Option.getD_some, hres]
  have hmain := save_message_fresh env now st msg ctx cid htext hcid hfresh
  rw [hstep] at hmain
  refine ⟨_, buildRow msg cid (generate_message_hash msg.id cid (msg.text.getD ""))
      none (chatStep env now st msg ctx).1 now, hmain, ?_, ?_, rfl, rfl, rfl⟩
  · show (chatStep env now st msg ctx).2.db.messages ++ [_] = _
    rw [chatStep_messages]
  · exact hsid

/-- C6: the code evaluated at the failing input — chat 100 first seen at time
0 is re-saved at time 5 and its `created_at` becomes 5, and user 7 whose row
was first seen at time 0 is re-saved by a fresh process (empty cache) at time
5 and its `created_at` becomes 5: SQLite `INSERT OR REPLACE` deletes the
conflicting row and re-inserts, so the omitted `created_at` column takes its
`CURRENT_TIMESTAMP` default again instead of keeping the first-seen value. -/
theorem upsert_resets_created_at :
    ((save_chat_info envFail 5 (save_chat_info envFail 0 stEmpty chatG).2
        chatG).2.db.chats.map ChatRow.created_at = [5]) ∧
    ((save_user_info 5 stUser0 (some rawUserU)).2.db.users.map
        UserRow.created_at = [5]) :=
  ⟨rfl, rfl⟩

set_option maxRecDepth 8000 in
/-- C7 counterexample: a chat whose message iteration raises after one new
message was already saved contributes 1 — not 0 — to the driver's total, so an
exception raised while processing a chat does not in general make that chat
contribute zero. -/
theorem crawl_failing_chat_nonzero :
    (crawl_all_chats envFail 0 stEmpty [ccFail]).1 = 1 ∧
    ¬((crawl_all_chats envFail 0 stEmpty [ccFail]).1 = 0) :=
  ⟨by decide, by decide⟩

/-- C7 amended: the driver returns the sum of the per-chat contributions and
keeps processing the remaining chats after a failure; a chat failing before
its loop (resolution error) contributes zero, and a failure during the loop is
caught keeping the count of messages newly inserted before it. -/
theorem crawl_error_containment (env : Env) (now : Nat) :
    (∀ (st : CrawlerState) (c : ChatCrawl) (rest : List ChatCrawl),
        crawl_all_chats env now st (c :: rest) =
          ((crawl_chat_messages env now st c).1 +
             (crawl_all_chats env now (crawl_chat_messages env now st c).2 rest).1,
           (crawl_all_chats env now (crawl_chat_messages env now st c).2 rest).2)) ∧
    (∀ (st : CrawlerState) (items : List CrawlItem),
        crawl_chat_messages env now st ⟨Except.error (), items⟩ = (0, st)) ∧
    (∀ (ci : ChatData) (rest : List CrawlItem) (n : Nat) (st : CrawlerState),
        crawlLoop env now ci (CrawlItem.fail :: rest) n st = (n, st)) :=
  ⟨fun _ _ _ => rfl, fun _ _ => rfl, fun _ _ _ _ => rfl⟩

/-- C8: the live handler leaves the state untouched for an event without text
or whose peer reference lacks both group/channel discriminants (in particular
for every direct private message, whose peer is a user reference), and a
routed event — text plus a channel or group discriminant — goes through
`save_message` with no caller-supplied chat context. -/
theorem live_listener_spec (env : Env) (now : Nat) (st : CrawlerState)
    (ev : RawMessage) :
    ((ev.peer_id.isGroupOrChannel = false ∨ strTruthy ev.text = false) →
        handle_new_message env now st ev = st) ∧
    (strTruthy ev.text = true → ev.peer_id.isGroupOrChannel = true →
        handle_new_message env now st ev =
          (match save_message env now st ev none with
           | Except.ok p => p.2
           | Except.error _ => st)) := by
  constructor
  · intro h
    unfold handle_new_message
    rcases h with h | h
    · rw [h, Bool.and_false]
      rfl
    · rw [h, Bool.false_and]
      rfl
  · intro h1 h2
    unfold handle_new_message
    rw [h1, h2]
    rfl

set_option maxRecDepth 8000 in
/-- C8 witness: a private text event leaves the empty state unchanged, and a
channel event is routed through the pipeline with chat context `none`. -/
theorem live_listener_spec_witness :
    (msgPrivate.peer_id.isGroupOrChannel = false ∨
        strTruthy msgPrivate.text = false) ∧
    handle_new_message envFail 0 stEmpty msgPrivate = stEmpty ∧
    strTruthy msgALive.text = true ∧ msgALive.peer_id.isGroupOrChannel = true ∧
    handle_new_message envFail 0 stEmpty msgALive =
      (match save_message envFail 0 stEmpty msgALive none with
       | Except.ok p => p.2
       | Except.error _ => stEmpty) :=
  ⟨Or.inl (by decide),
   (live_listener_spec envFail 0 stEmpty msgPrivate).1 (Or.inl (by decide)),
   by decide, by decide,
   (live_listener_spec envFail 0 stEmpty msgALive).2 (by decide) (by decide)⟩

/-- The head of the in-process cache is found first. -/
theorem cacheLookup_cons_self (uid : Int) (d : UserData)
    (c : List (Int × UserData)) :
    cacheLookup uid ((uid, d) :: c) = some d := by
  unfold cacheLookup
  rw [List.find?_cons_of_pos _ (by simp)]
  rfl

/-- A cache hit returns the cached dict and leaves the state unchanged. -/
theorem save_user_info_cache_hit (now : Nat) (st : CrawlerState) (u : RawUser)
    (uid : Int) (d : UserData) (hid : u.id? = some uid)
    (hd : cacheLookup uid st.user_cache = some d) :
    save_user_info now st (some u) = (some d, st) := by
  simp [save_user_info, hid, hd]

/-- A cache miss pushes the new dict onto the cache. -/
theorem save_user_info_cache_miss_state (now : Nat) (st : CrawlerState)
    (u : RawUser) (uid : Int) (hid : u.id? = some uid)
    (hc : cacheLookup uid st.user_cache = none) :
    (save_user_info now st (some u)).2.user_cache =
      (uid, ⟨uid, u.username, u.first_name, u.last_name, u.phone, u.bot⟩) ::
        st.user_cache := by
  simp [save_user_info, hid, hc]

/-- C9: a cache hit makes `save_user_info` return the cached dict with no
store write, and after any call for a given user id every further call for the
same id (with any clock and any newly observed attribute values) leaves the
whole state unchanged — so one `user_id` causes at most one upsert of `users`
per process lifetime and later profile changes are not re-persisted. -/
theorem user_cache_spec (now1 now2 : Nat) (st : CrawlerState)
    (u1 u2 : RawUser) (uid : Int)
    (h1 : u1.id? = some uid) (h2 : u2.id? = some uid) :
    (∀ d : UserData, cacheLookup uid st.user_cache = some d →
        save_user_info now1 st (some u1) = (some d, st)) ∧
    (save_user_info now2 (save_user_info now1 st (some u1)).2 (some u2)).2 =
      (save_user_info now1 st (some u1)).2 := by
  constructor
  · intro d hd
    exact save_user_info_cache_hit now1 st u1 uid d h1 hd
  · cases hc : cacheLookup uid st.user_cache with
    | some d =>
      rw [save_user_info_cache_hit now1 st u1 uid d h1 hc]
      show (save_user_info now2 st (some u2)).2 = st
      rw [save_user_info_cache_hit now2 st u2 uid d h2 hc]
    | none =>
      have hcache := save_user_info_cache_miss_state now1 st u1 uid h1 hc
      have hhit := save_user_info_cache_hit now2
        (save_user_info now1 st (some u1)).2 u2 uid _ h2
        (by rw [hcache]; exact cacheLookup_cons_self uid _ _)
      rw [hhit]

/-- C9 witness: a concrete cache hit performs no write, and a second call for
user 7 after a first one leaves the state unchanged. -/
theorem user_cache_spec_witness :
    rawUserU.id? = some 7 ∧ rawUserV.id? = some 7 ∧
    cacheLookup 7 stCache.user_cache = some dW ∧
    save_user_info 1 stCache (some rawUserU) = (some dW, stCache) ∧
    (save_user_info 2 (save_user_info 1 stEmpty (some rawUserU)).2
        (some rawUserV)).2 =
      (save_user_info 1 stEmpty (some rawUserU)).2 :=
  ⟨rfl, rfl, by decide,
   (user_cache_spec 1 0 stCache rawUserU rawUserV 7 rfl rfl).1 dW (by decide),
   (user_cache_spec 1 2 stEmpty rawUserU rawUserV 7 rfl rfl).2⟩

/-- Membership through descending-date insertion. -/
theorem mem_insertByDateDesc {x m : MessageRow} {l : List MessageRow}
    (h : x ∈ insertByDateDesc m l) : x = m ∨ x ∈ l := by
  induction l with
  | nil =>
    simp only [insertByDateDesc] at h
    exact Or.inl (List.mem_singleton.mp h)
  | cons a t ih =>
    simp only [insertByDateDesc] at h
    split at h
    · rcases List.mem_cons.mp h with h | h
      · exact Or.inl h
      · exact Or.inr h
    · rcases List.mem_cons.mp h with h | h
      · exact Or.inr (h ▸ List.mem_cons_self a t)
      · rcases ih h with h | h
        · exact Or.inl h
        · exact Or.inr (List.mem_cons_of_mem a h)

/-- Membership through the descending-date sort. -/
theorem mem_sortByDateDesc {x : MessageRow} {l : List MessageRow}
    (h : x ∈ sortByDateDesc l) : x ∈ l := by
  induction l with
  | nil => exact h
  | cons a t ih =>
    have hstep : sortByDateDesc (a :: t) = insertByDateDesc a (sortByDateDesc t) := rfl
    rw [hstep] at h
    rcases mem_insertByDateDesc h with h | h
    · exact h ▸ List.mem_cons_self a t
    · exact List.mem_cons_of_mem a (ih h)

/-- C10: every search result row carries `chat_title` and `sender_username`
computed by joining the CURRENT `chats` and `users` tables on `chat_id` and
`sender_id`, and every export record likewise (including its concatenated
`sender_name`) — never from the snapshot columns of the message row.  Hence a
message whose chat or sender has no row yields null joined fields (and an
empty export `sender_name`) even when its own snapshot columns are set. -/
theorem query_outputs_join_current_tables (db : DB) (q : String)
    (ctf : Option String) (lim : Nat) :
    (∀ r ∈ search_messages db q ctf lim,
        r.chat_title = (lookupChat db r.msg.chat_id).bind ChatRow.title ∧
        r.sender_username =
          (lookupUser db r.msg.sender_id).bind UserRow.username ∧
        (lookupChat db r.msg.chat_id = none → r.chat_title = none) ∧
        (lookupUser db r.msg.sender_id = none → r.sender_username = none)) ∧
    (∀ e ∈ export_rows db,
        e.chat_title = (lookupChat db e.chat_id).bind ChatRow.title ∧
        e.chat_username = (lookupChat db e.chat_id).bind ChatRow.username ∧
        e.sender_username = (lookupUser db e.sender_id).bind UserRow.username ∧
        (lookupChat db e.chat_id = none →
            e.chat_title = none ∧ e.chat_username = none) ∧
        (lookupUser db e.sender_id = none →
            e.sender_username = none ∧ e.sender_name = "")) := by
  constructor
  · intro r hr
    simp only [search_messages] at hr
    have hr2 := List.mem_of_mem_take hr
    rcases List.mem_map.mp hr2 with ⟨m, hm, rfl⟩
    refine ⟨rfl, rfl, fun h => ?_, fun h => ?_⟩
    · show (lookupChat db m.chat_id).bind ChatRow.title = none
      have h2 : lookupChat db m.chat_id = none := h
      rw [h2]
      rfl
    · show (lookupUser db m.sender_id).bind UserRow.username = none
      have h2 : lookupUser db m.sender_id = none := h
      rw [h2]
      rfl
  · intro e he
    have he2 : e ∈ (sortByDateDesc db.messages).map (exportRecord db) := he
    rcases List.mem_map.mp he2 with ⟨m, hm, rfl⟩
    refine ⟨rfl, rfl, rfl, fun h => ?_, fun h => ?_⟩
    · have h2 : lookupChat db m.chat_id = none := h
      constructor
      · show (lookupChat db m.chat_id).bind ChatRow.title = none
        rw [h2]
        rfl
      · show (lookupChat db m.chat_id).bind ChatRow.username = none
        rw [h2]
        rfl
    · have h2 : lookupUser db m.sender_id = none := h
      constructor
      · show (lookupUser db m.sender_id).bind UserRow.username = none
        rw [h2]
        rfl
      · show stripStr ((((lookupUser db m.sender_id).bind UserRow.first_name).getD "") ++
            " " ++
            (((lookupUser db m.sender_id).bind UserRow.last_name).getD "")) = ""
        rw [h2]
        decide

/-- C10 witness: the orphan message is returned by search and export with the
joined fields null and the export name empty, its snapshot columns
notwithstanding. -/
theorem query_outputs_join_current_tables_witness :
    searchRowOrphan ∈ search_messages dbOrphan "hell" none 100 ∧
    exportRowOrphan ∈ export_rows dbOrphan ∧
    msgRowOrphan.chat_title = some "SnapTitle" ∧
    msgRowOrphan.sender_username = some "snapuser" ∧
    searchRowOrphan.chat_title = none ∧ searchRowOrphan.sender_username = none ∧
    exportRowOrphan.chat_title = none ∧ exportRowOrphan.sender_name = "" :=
  ⟨by decide, by decide, rfl, rfl,
   ((query_outputs_join_current_tables dbOrphan "hell" none 100).1
       searchRowOrphan (by decide)).2.2.1 (by decide),
   ((query_outputs_join_current_tables dbOrphan "hell" none 100).1
       searchRowOrphan (by decide)).2.2.2 (by decide),
   (((query_outputs_join_current_tables dbOrphan "hell" none 100).2
       exportRowOrphan (by decide)).2.2.2.1 (by decide)).1,
   (((query_outputs_join_current_tables dbOrphan "hell" none 100).2
       exportRowOrphan (by decide)).2.2.2.2 (by decide)).2⟩

set_option maxRecDepth 8000 in
/-- C5 witness: Scenario D at message 42 with sender id 7, under the
environment whose sender resolution always raises. -/
theorem sender_failure_tolerated_witness :
    strTruthy msgA.text = true ∧ effectiveChatId msgA = some 100 ∧
    message_exists stEmpty (generate_message_hash 42 100 "hello") = false ∧
    msgA.sender_id = some 7 ∧ ¬((7 : Int) = 0) ∧
    envFail.resolveSender 7 = Except.error () ∧
    ∃ (st1 : CrawlerState) (row : MessageRow),
      save_message envFail 0 stEmpty msgA none = Except.ok (true, st1) ∧
      st1.db.messages = stEmpty.db.messages ++ [row] ∧
      row.sender_id = some 7 ∧ row.sender_username = none ∧
      row.sender_first_name = none ∧ row.sender_last_name = none :=
  ⟨by decide, by decide, by decide, by decide, by decide, rfl,
   sender_failure_tolerated envFail 0 stEmpty msgA none 100 7
     (by decide) (by decide) (by decide) (by decide) (by decide) rfl⟩

end Crawler
